import Mathlib

/-!
Verification of the ingestion/caching/retrieval orchestration core of the
Personal-Data-Assistant repository (src/server.py, src/chatbot/worker.py).

The Python code is shallowly embedded: external collaborators (PyMuPDF page
text, the vision model's responses, the text splitter, the Chroma vector
store, the JSON parser outcome) enter as explicit inputs, while all of the
repository's own decision logic (extraction filtering, cache check, fallback
ordering, chunk filtering, session-state updates, prompt handling) is
translated function by function from the source.
-/

/-- A LangChain `Document` as used by worker.py: `page_content` plus the
metadata keys this codebase writes (`page`, `source`, `ocr`, `page_range`).
Absent metadata keys are `none`. -/
structure Doc where
  page_content : String
  page : Option Nat := none
  source : String := ""
  ocr : Option String := none
  page_range : Option String := none
deriving Repr, DecidableEq

/-- Python exception kinds raised by the embedded code paths. -/
inductive PyError where
  | typeError
  | valueError
  | runtimeError
  | attributeError
deriving Repr, DecidableEq

/-- Python's `str.strip()` on a character list: drop leading and trailing
whitespace. -/
def stripChars (cs : List Char) : List Char :=
  ((cs.dropWhile Char.isWhitespace).reverse.dropWhile Char.isWhitespace).reverse

/-- Python's `str.strip()`. -/
def pyStrip (s : String) : String := String.mk (stripChars s.data)

/-- `_extract_selectable_text_documents`, worker.py lines 53-62, inner loop:
`for i, page in enumerate(pdf)` appending a Document for each page whose
stripped text is non-empty, with 1-based page metadata.  The PDF's per-page
`page.get_text("text") or ""` results are the `pages` input; `i0` is the
current value of the enumeration counter. -/
def extractFrom (pdf_path : String) : Nat → List String → List Doc
  | _, [] => []
  | i0, t :: rest =>
    let text := pyStrip t
    if text ≠ "" then
      { page_content := text, page := some (i0 + 1), source := pdf_path } ::
        extractFrom pdf_path (i0 + 1) rest
    else
      extractFrom pdf_path (i0 + 1) rest

/-- `_extract_selectable_text_documents(pdf_path)`, worker.py lines 53-62. -/
def _extract_selectable_text_documents (pdf_path : String) (pages : List String) : List Doc :=
  extractFrom pdf_path 0 pages

/-- A Python value as produced by `json.loads` in worker.py's vision-OCR
response handling (strings, numbers, arrays, objects, null). -/
inductive PyVal where
  | str (s : String)
  | int (n : Int)
  | list (xs : List PyVal)
  | dict (kvs : List (String × PyVal))
  | null
deriving Repr

/-- Python truthiness for the values above (`bool(v)`). -/
def pyTruthy : PyVal → Bool
  | .str s => s ≠ ""
  | .int n => n ≠ 0
  | .list xs => ¬xs.isEmpty
  | .dict kvs => ¬kvs.isEmpty
  | .null => false

/-- `v.get(key, default)` / `v.get(key)` (default `None`): succeeds only on a
dict; on any other value Python raises AttributeError. -/
def pyGet (v : PyVal) (key : String) (dflt : PyVal) : Except PyError PyVal :=
  match v with
  | .dict kvs =>
    match kvs.find? (fun kv => kv.1 = key) with
    | some kv => .ok kv.2
    | none => .ok dflt
  | _ => .error .attributeError

/-- Iterating a Python value, as `zip(v, ...)` does: lists yield elements,
strings yield 1-character strings, dicts yield their keys, anything else
raises TypeError. -/
def pyIter : PyVal → Except PyError (List PyVal)
  | .list xs => .ok xs
  | .str s => .ok (s.toList.map (fun c => .str (String.mk [c])))
  | .dict kvs => .ok (kvs.map (fun kv => .str kv.1))
  | _ => .error .typeError

/-- `(item.get("text") or "").strip()` for one `item` of the parsed `pages`
array (worker.py lines 132-133): AttributeError when `item` is not a dict or
the looked-up value is truthy but not a string. -/
def visionItemText (item : PyVal) : Except PyError String :=
  match pyGet item "text" .null with
  | .error e => .error e
  | .ok v =>
    match (if pyTruthy v then v else .str "") with
    | .str s => .ok (pyStrip s)
    | _ => .error .attributeError

/-- The `for item, idx in zip(...)` loop of worker.py lines 132-138.  Returns
the Documents appended before any exception, and whether the loop completed
without raising (Python keeps the appends made before an exception). -/
def visionTryLoop (pdf_path : String) : List (PyVal × Nat) → List Doc × Bool
  | [] => ([], true)
  | (item, idx) :: rest =>
    match visionItemText item with
    | .error _ => ([], false)
    | .ok text =>
      let tail := visionTryLoop pdf_path rest
      if text ≠ "" then
        ({ page_content := text, page := some (idx + 1), source := pdf_path,
           ocr := some "vision" } :: tail.1, tail.2)
      else tail

/-- The raw-fallback Document built in the `except` branch of worker.py
lines 139-146: the stripped raw response tagged `ocr="vision_raw"` with a
`page_range` of `f"{batch_start+1}-{batch_end}"`. -/
def visionRawDoc (pdf_path : String) (batch_start batch_end : Nat) (raw : String) : Doc :=
  { page_content := raw, source := pdf_path, ocr := some "vision_raw",
    page_range := some (toString (batch_start + 1) ++ "-" ++ toString batch_end) }

/-- One batch of `_vision_ocr_pdf`, worker.py lines 126-146.  The external
model call's result is abstracted as the text `respContent` (the value of
`resp.content or ""`; line 127 then strips it into `raw`) together with the
outcome `parsed` of `json.loads raw` (`Except.error` = JSONDecodeError).
The Documents this batch appends to `docs` are returned; the batch itself
never raises (every exception inside the `try` is caught at line 139). -/
def visionProcessBatch (pdf_path : String) (batch_start batch_end : Nat)
    (respContent : String) (parsed : Except Unit PyVal) : List Doc :=
  let raw := pyStrip respContent
  let batch_indices := List.range' batch_start (batch_end - batch_start)
  match parsed with
  | .error _ =>
    if raw ≠ "" then [visionRawDoc pdf_path batch_start batch_end raw] else []
  | .ok data =>
    match (pyGet data "pages" (.list [])).bind pyIter with
    | .error _ =>
      if raw ≠ "" then [visionRawDoc pdf_path batch_start batch_end raw] else []
    | .ok pagesVal =>
      let res := visionTryLoop pdf_path (pagesVal.zip batch_indices)
      if res.2 then res.1
      else res.1 ++ (if raw ≠ "" then [visionRawDoc pdf_path batch_start batch_end raw] else [])

/-- The `while batch_start < pages_to_process` batching loop bounds of
worker.py lines 101-103/148: consecutive `[batch_start, batch_end)` ranges of
width `batch_size` (the fuel argument bounds the recursion; with a positive
batch size it is never exhausted). -/
def batchRangesAux (batch_size pages_to_process : Nat) : Nat → Nat → List (Nat × Nat)
  | 0, _ => []
  | fuel + 1, batch_start =>
    if batch_start < pages_to_process then
      let batch_end := min (batch_start + batch_size) pages_to_process
      (batch_start, batch_end) :: batchRangesAux batch_size pages_to_process fuel batch_end
    else []

/-- All batch ranges processed by `_vision_ocr_pdf` for a given page budget. -/
def visionBatchRanges (batch_size pages_to_process : Nat) : List (Nat × Nat) :=
  batchRangesAux batch_size pages_to_process pages_to_process 0

/-- `_vision_ocr_pdf(pdf_path, max_pages, dpi, batch_size)`, worker.py lines
65-151.  `numPages` is the PDF's page count; `responses` supplies, per batch,
the model's stripped response text and its `json.loads` outcome.  Raises
RuntimeError when the LLM is not initialized (line 73-74); otherwise collects
each batch's Documents in batch order. -/
def _vision_ocr_pdf (pdf_path : String) (numPages : Nat)
    (responses : List (String × Except Unit PyVal)) (llmInitialized : Bool)
    (max_pages : Nat := 20) (batch_size : Nat := 3) : Except PyError (List Doc) :=
  if ¬ llmInitialized then .error .runtimeError
  else
    let pages_to_process := min numPages max_pages
    .ok (((visionBatchRanges batch_size pages_to_process).zip responses).flatMap
      (fun br => visionProcessBatch pdf_path br.1.1 br.1.2 br.2.1 br.2.2))

/-- The parameter names `_vision_ocr_pdf` accepts (worker.py line 65). -/
def visionOcrParamNames : List String := ["pdf_path", "max_pages", "dpi", "batch_size"]

/-- The keyword arguments `process_document` passes at its call site
`_vision_ocr_pdf(document_path, max_pages=12, zoom=1.4)` (worker.py
line 194). -/
def processDocumentVisionKwargs : List String := ["max_pages", "zoom"]

/-- Python call binding: the call succeeds only if every keyword argument
names a parameter of the callee; otherwise the call raises TypeError before
the callee's body runs. -/
def visionCallBindingOk : Bool :=
  processDocumentVisionKwargs.all (fun k => visionOcrParamNames.contains k)

/-- The retrieval chain stored in `conversation_retrieval_chain`: either
loaded from a cached Chroma directory (worker.py lines 177-185) or built from
freshly embedded chunks (lines 205-222). -/
inductive RChain where
  | fromCache (persist_dir : String)
  | fromDocs (chunks : List Doc) (persist_dir : Option String)
deriving Repr, DecidableEq

/-- The module-level mutable session state of worker.py (lines 27-28):
`conversation_retrieval_chain` and `chat_history`. -/
structure SessionState where
  conversation_retrieval_chain : Option RChain
  chat_history : List (String × String)
deriving Repr, DecidableEq

/-- Observable steps of `process_document`, used to state which pipeline
stages a call invokes. -/
inductive Event where
  | extractText
  | visionCall
  | visionBody
  | splitChunks
  | buildIndex
  | loadIndex
deriving Repr, DecidableEq

/-- The on-disk vector-store root: `dirEntries dir = some l` models
`os.path.isdir(dir)` true with `os.listdir(dir) = l`; `none` models a
non-existent directory. -/
def FsState : Type := String → Option (List String)

/-- `persist_dir = os.path.join(VECTOR_DB_DIR, doc_id)`, worker.py line 172:
a function of the document identifier alone. -/
def VECTOR_DB_DIR : String := "vector_db"

/-- The persist directory for a document identifier (worker.py line 172). -/
def persistDirOf (doc_id : String) : String := VECTOR_DB_DIR ++ "/" ++ doc_id

/-- The cache test of worker.py line 175:
`os.path.isdir(persist_dir) and os.listdir(persist_dir)`. -/
def cacheHit (dirEntries : FsState) (doc_id : Option String) : Bool :=
  match doc_id with
  | some id =>
    match dirEntries (persistDirOf id) with
    | some entries => ¬ entries.isEmpty
    | none => false
  | none => false

/-- Result of an embedded `process_document` call: the returned string or the
raised exception, the session state at return/raise time, the vector-store
directory state, and the trace of pipeline stages that ran. -/
structure PDResult where
  result : Except PyError String
  state : SessionState
  fsAfter : FsState
  trace : List Event

/-- Worker.py lines 199-202: `splitter.split_documents(docs)` followed by
`[c for c in chunks if (c.page_content or "").strip()]`.  The external
`RecursiveCharacterTextSplitter.split_documents` is abstracted as a
per-document splitter `splitOne` applied in document order (its LangChain
semantics); the list comprehension's empty-chunk filter is the repository's
own logic. -/
def processChunks (splitOne : Doc → List Doc) (docs : List Doc) : List Doc :=
  (docs.flatMap splitOne).filter (fun c => ¬ pyStrip c.page_content = "")

/-- Worker.py lines 196-222: the no-text guard, chunk splitting and
filtering, Chroma construction (persisted when a persist directory is set —
the vector store's persist interface is modelled as making that directory
non-empty, per the IndexStore contract) and chain construction, returning
"indexed". -/
def processDocumentAfterDocs (dirEntries : FsState) (splitOne : Doc → List Doc)
    (chain0 : Option RChain) (persist_dir : Option String) (docs : List Doc)
    (tr : List Event) : PDResult :=
  if docs.isEmpty then
    { result := .error .valueError,
      state := { conversation_retrieval_chain := chain0, chat_history := [] },
      fsAfter := dirEntries, trace := tr }
  else
    let chunks := processChunks splitOne docs
    match persist_dir with
    | some pd =>
      { result := .ok "indexed",
        state := { conversation_retrieval_chain := some (.fromDocs chunks (some pd)),
                   chat_history := [] },
        fsAfter := fun d => if d = pd then some ["chroma.sqlite3"] else dirEntries d,
        trace := tr ++ [.splitChunks, .buildIndex] }
    | none =>
      { result := .ok "indexed",
        state := { conversation_retrieval_chain := some (.fromDocs chunks none),
                   chat_history := [] },
        fsAfter := dirEntries,
        trace := tr ++ [.splitChunks, .buildIndex] }

/-- Worker.py lines 189-225: the cache-miss path of `process_document` —
selectable-text extraction, then (only on zero yield) the vision-OCR call
written `_vision_ocr_pdf(document_path, max_pages=12, zoom=1.4)` at line 194,
whose keyword binding is checked before the callee's body runs, then the
no-text guard, then chunking/indexing. -/
def processDocumentMiss (dirEntries : FsState) (pages : List String)
    (responses : List (String × Except Unit PyVal)) (splitOne : Doc → List Doc)
    (chain0 : Option RChain) (document_path : String)
    (persist_dir : Option String) : PDResult :=
  let docs := _extract_selectable_text_documents document_path pages
  if docs.isEmpty then
    if visionCallBindingOk then
      match _vision_ocr_pdf document_path pages.length responses true 12 3 with
      | .error e =>
        { result := .error e,
          state := { conversation_retrieval_chain := chain0, chat_history := [] },
          fsAfter := dirEntries, trace := [.extractText, .visionCall] }
      | .ok vdocs =>
        processDocumentAfterDocs dirEntries splitOne chain0 persist_dir vdocs
          [.extractText, .visionCall, .visionBody]
    else
      { result := .error .typeError,
        state := { conversation_retrieval_chain := chain0, chat_history := [] },
        fsAfter := dirEntries, trace := [.extractText, .visionCall] }
  else
    processDocumentAfterDocs dirEntries splitOne chain0 persist_dir docs [.extractText]

/-- `process_document(document_path, doc_id)`, worker.py lines 155-225.
Inputs beyond the two Python arguments are the embedded environment: the
vector-store directory state, the PDF's per-page selectable text, the vision
model's per-batch responses, the external splitter, whether `init_llm` ran,
and the session state at call time.  Mirrors the source order: init guard
(line 162), chat-history reset (line 168), cache check and cached return
(lines 170-187), then the miss path. -/
def process_document (dirEntries : FsState) (pages : List String)
    (responses : List (String × Except Unit PyVal)) (splitOne : Doc → List Doc)
    (initialized : Bool) (st : SessionState) (document_path : String)
    (doc_id : Option String) : PDResult :=
  if ¬ initialized then
    { result := .error .runtimeError, state := st, fsAfter := dirEntries, trace := [] }
  else if cacheHit dirEntries doc_id then
    match doc_id with
    | some id =>
      { result := .ok "cached",
        state := { conversation_retrieval_chain := some (.fromCache (persistDirOf id)),
                   chat_history := [] },
        fsAfter := dirEntries, trace := [.loadIndex] }
    | none =>
      -- unreachable: cacheHit is false when doc_id is none
      { result := .error .runtimeError, state := st, fsAfter := dirEntries, trace := [] }
  else
    processDocumentMiss dirEntries pages responses splitOne
      st.conversation_retrieval_chain document_path (doc_id.map persistDirOf)

/-- `process_prompt(prompt)`, worker.py lines 228-244.  The external
`conversation_retrieval_chain.invoke({"question": p})` is abstracted as
`invoke`, returning the raised exception or `out.get("result")` (an absent or
null result key is `none`).  Returns the reply string together with the
updated `chat_history`. -/
def process_prompt (chain : Option RChain) (history : List (String × String))
    (invoke : RChain → String → Except PyError (Option String))
    (prompt : String) : Except PyError (String × List (String × String)) :=
  match chain with
  | none => .ok ("Please upload a PDF first so I can answer based on it.", history)
  | some ch =>
    let p := pyStrip prompt
    if p = "" then .ok ("Please type a question.", history)
    else
      match invoke ch p with
      | .error e => .error e
      | .ok res =>
        let answer := pyStrip (res.getD "")
        .ok ((if answer = "" then "No response." else answer),
             history ++ [(p, answer)])

/-- The `/chat` endpoint, server.py lines 94-116: status code and the string
placed identically in the `answer`/`response`/`message`/`bot_response` keys.
`message` is the request body's `message` field (`none` when absent).  An
exception from `process_prompt` is caught and mapped to 500 (lines 113-116);
otherwise 200 with `process_prompt(prompt) or ""` (line 108). -/
def chatEndpoint (chain : Option RChain) (history : List (String × String))
    (invoke : RChain → String → Except PyError (Option String))
    (message : Option String) : Nat × String :=
  let prompt := pyStrip (message.getD "")
  if prompt = "" then (200, "Please type a question.")
  else
    match process_prompt chain history invoke prompt with
    | .ok ans => (200, if ans.1 = "" then "" else ans.1)
    | .error _ => (500, "Sorry, something went wrong. Please try again.")

/-- 2^32, the word modulus of SHA-256. -/
def M32 : Nat := 4294967296

/-- Right rotation of a 32-bit word. -/
def rotr32 (n x : Nat) : Nat := (x / 2 ^ n + x % 2 ^ n * 2 ^ (32 - n)) % M32

/-- Logical right shift of a 32-bit word. -/
def shr32 (n x : Nat) : Nat := x / 2 ^ n

/-- Bitwise complement of a 32-bit word. -/
def not32 (a : Nat) : Nat := M32 - 1 - a % M32

/-- SHA-256 Ch(e,f,g). -/
def chFn (e f g : Nat) : Nat := Nat.xor (Nat.land e f) (Nat.land (not32 e) g)

/-- SHA-256 Maj(a,b,c). -/
def majFn (a b c : Nat) : Nat :=
  Nat.xor (Nat.xor (Nat.land a b) (Nat.land a c)) (Nat.land b c)

/-- SHA-256 Σ0. -/
def bsig0 (a : Nat) : Nat := Nat.xor (Nat.xor (rotr32 2 a) (rotr32 13 a)) (rotr32 22 a)

/-- SHA-256 Σ1. -/
def bsig1 (e : Nat) : Nat := Nat.xor (Nat.xor (rotr32 6 e) (rotr32 11 e)) (rotr32 25 e)

/-- SHA-256 σ0. -/
def ssig0 (w : Nat) : Nat := Nat.xor (Nat.xor (rotr32 7 w) (rotr32 18 w)) (shr32 3 w)

/-- SHA-256 σ1. -/
def ssig1 (w : Nat) : Nat := Nat.xor (Nat.xor (rotr32 17 w) (rotr32 19 w)) (shr32 10 w)

/-- The 64 SHA-256 round constants. -/
def sha256K : List Nat :=
  [1116352408, 1899447441, 3049323471, 3921009573, 961987163,
   1508970993, 2453635748, 2870763221, 3624381080, 310598401,
   607225278, 1426881987, 1925078388, 2162078206, 2614888103,
   3248222580, 3835390401, 4022224774, 264347078, 604807628,
   770255983, 1249150122, 1555081692, 1996064986, 2554220882,
   2821834349, 2952996808, 3210313671, 3336571891, 3584528711,
   113926993, 338241895, 666307205, 773529912, 1294757372,
   1396182291, 1695183700, 1986661051, 2177026350, 2456956037,
   2730485921, 2820302411, 3259730800, 3345764771, 3516065817,
   3600352804, 4094571909, 275423344, 430227734, 506948616,
   659060556, 883997877, 958139571, 1322822218, 1537002063,
   1747873779, 1955562222, 2024104815, 2227730452, 2361852424,
   2428436474, 2756734187, 3204031479, 3329325298]

/-- The SHA-256 initial hash value. -/
def sha256Init : List Nat :=
  [1779033703, 3144134277, 1013904242, 2773480762,
   1359893119, 2600822924, 528734635, 1541459225]

/-- One message-schedule extension step: appends W[n] computed from
W[n-16], W[n-15], W[n-7], W[n-2]. -/
def scheduleStep (ws : List Nat) : List Nat :=
  let n := ws.length
  ws ++ [(ws.getD (n - 16) 0 + ssig0 (ws.getD (n - 15) 0) +
          ws.getD (n - 7) 0 + ssig1 (ws.getD (n - 2) 0)) % M32]

/-- Extends the 16 block words to the full 64-entry message schedule. -/
def fullSchedule (ws : List Nat) : List Nat :=
  (List.range 48).foldl (fun acc _ => scheduleStep acc) ws

/-- One SHA-256 compression round on the state [a,b,c,d,e,f,g,h], fed the
round constant and scheduled word. -/
def roundStep (st : List Nat) (kw : Nat × Nat) : List Nat :=
  match st with
  | [a, b, c, d, e, f, g, h] =>
    let t1 := (h + bsig1 e + chFn e f g + kw.1 + kw.2) % M32
    let t2 := (bsig0 a + majFn a b c) % M32
    [(t1 + t2) % M32, a, b, c, (d + t1) % M32, e, f, g]
  | other => other

/-- Big-endian 4-byte groups to 32-bit words. -/
def bytesToWords : List Nat → List Nat
  | b0 :: b1 :: b2 :: b3 :: rest =>
    (b0 % 256 * 16777216 + b1 % 256 * 65536 + b2 % 256 * 256 + b3 % 256) ::
      bytesToWords rest
  | _ => []

/-- SHA-256 compression of one 64-byte block into the running hash. -/
def compressBlock (h0 : List Nat) (block : List Nat) : List Nat :=
  let w := fullSchedule (bytesToWords block)
  let st := (sha256K.zip w).foldl roundStep h0
  List.zipWith (fun x y => (x + y) % M32) h0 st

/-- The message length as 8 big-endian bytes. -/
def lengthBytesBE (n : Nat) : List Nat :=
  [n / 2 ^ 56 % 256, n / 2 ^ 48 % 256, n / 2 ^ 40 % 256, n / 2 ^ 32 % 256,
   n / 2 ^ 24 % 256, n / 2 ^ 16 % 256, n / 2 ^ 8 % 256, n % 256]

/-- SHA-256 padding: 0x80, zeros to 56 mod 64, then the bit length. -/
def sha256Pad (msg : List Nat) : List Nat :=
  msg ++ [128] ++ List.replicate ((119 - msg.length % 64) % 64) 0 ++
    lengthBytesBE (8 * msg.length)

/-- Splits a byte list into consecutive chunks of size `n` (the last chunk
may be shorter); also models `iter(lambda: f.read(n), b"")`. -/
def chunksOfBytes (n : Nat) (bs : List Nat) : List (List Nat) :=
  if bs.isEmpty ∨ n = 0 then []
  else bs.take n :: chunksOfBytes n (bs.drop n)
termination_by bs.length
decreasing_by
  rename_i h
  push_neg at h
  have h1 : bs ≠ [] := by simpa [List.isEmpty_iff] using h.1
  have h2 : 0 < bs.length := List.length_pos.mpr h1
  simp only [List.length_drop]
  omega

/-- The SHA-256 digest of a byte sequence, as eight 32-bit words. -/
def sha256Words (msg : List Nat) : List Nat :=
  (chunksOfBytes 64 (sha256Pad msg)).foldl compressBlock sha256Init

/-- The sixteen lowercase hexadecimal digits. -/
def hexDigitChars : List Char := "0123456789abcdef".data

/-- A nibble as a lowercase hexadecimal character. -/
def nibbleChar (n : Nat) : Char := hexDigitChars.getD n 'f'

/-- A 32-bit word as 8 lowercase hex characters, most significant first. -/
def hexCharsOfWord (w : Nat) : List Char :=
  [nibbleChar (w / 268435456 % 16), nibbleChar (w / 16777216 % 16),
   nibbleChar (w / 1048576 % 16), nibbleChar (w / 65536 % 16),
   nibbleChar (w / 4096 % 16), nibbleChar (w / 256 % 16),
   nibbleChar (w / 16 % 16), nibbleChar (w % 16)]

/-- `hashlib.sha256(bytes).hexdigest()`: the digest as 64 lowercase hex
characters. -/
def sha256Hex (msg : List Nat) : String :=
  String.mk ((sha256Words msg).flatMap hexCharsOfWord)

/-- `sha256_file(path)`, server.py lines 26-31: reads the file at `path`
(the mapping from paths to byte contents is `fileBytes`) in 1 MiB blocks,
feeding each block to the running hash — i.e. hashing the concatenation of
the blocks — and returns the hex digest. -/
def sha256_file (fileBytes : String → List Nat) (path : String) : String :=
  sha256Hex ((chunksOfBytes 1048576 (fileBytes path)).flatten)

/-! ### Lemmas about selectable-text extraction -/

theorem extractFrom_length (p : String) (pages : List String) (i0 : Nat) :
    (extractFrom p i0 pages).length =
      (pages.filter (fun t => ¬ pyStrip t = "")).length := by
  induction pages generalizing i0 with
  | nil => rfl
  | cons t rest ih =>
    by_cases ht : pyStrip t = ""
    · simp [extractFrom, List.filter, ht, ih]
    · simp [extractFrom, List.filter, ht, ih]

theorem extractFrom_mem (p : String) (pages : List String) (i0 : Nat) (d : Doc) :
    d ∈ extractFrom p i0 pages ↔
      ∃ j, j < pages.length ∧ ¬ pyStrip (pages.getD j "") = "" ∧
        d = { page_content := pyStrip (pages.getD j ""), page := some (i0 + j + 1),
              source := p } := by
  induction pages generalizing i0 with
  | nil => simp [extractFrom]
  | cons t rest ih =>
    by_cases ht : pyStrip t = ""
    · rw [show extractFrom p i0 (t :: rest) = extractFrom p (i0 + 1) rest by
        simp [extractFrom, ht]]
      rw [ih]
      constructor
      · rintro ⟨j, hj, hne, hd⟩
        refine ⟨j + 1, by simpa using hj, by simpa using hne, ?_⟩
        rw [hd]
        have : i0 + 1 + j + 1 = i0 + (j + 1) + 1 := by omega
        simp [this]
      · rintro ⟨j, hj, hne, hd⟩
        cases j with
        | zero => simp at hne; exact absurd ht (by simpa using hne)
        | succ j' =>
          refine ⟨j', by simpa using hj, by simpa using hne, ?_⟩
          rw [hd]
          have : i0 + 1 + j' + 1 = i0 + (j' + 1) + 1 := by omega
          simp [this]
    · rw [show extractFrom p i0 (t :: rest) =
          ({ page_content := pyStrip t, page := some (i0 + 1), source := p } : Doc) ::
            extractFrom p (i0 + 1) rest by simp [extractFrom, ht]]
      simp only [List.mem_cons]
      rw [ih]
      constructor
      · rintro (hd | ⟨j, hj, hne, hd⟩)
        · exact ⟨0, by simp, by simpa using ht, by simpa using hd⟩
        · refine ⟨j + 1, by simpa using hj, by simpa using hne, ?_⟩
          rw [hd]
          have : i0 + 1 + j + 1 = i0 + (j + 1) + 1 := by omega
          simp [this]
      · rintro ⟨j, hj, hne, hd⟩
        cases j with
        | zero => left; simpa using hd
        | succ j' =>
          right
          refine ⟨j', by simpa using hj, by simpa using hne, ?_⟩
          rw [hd]
          have : i0 + 1 + j' + 1 = i0 + (j' + 1) + 1 := by omega
          simp [this]

theorem extractFrom_page_gt (p : String) (pages : List String) (i0 : Nat) :
    ∀ d ∈ extractFrom p i0 pages, i0 < d.page.getD 0 := by
  intro d hd
  rw [extractFrom_mem] at hd
  obtain ⟨j, _, _, rfl⟩ := hd
  simp
  omega

theorem extractFrom_pairwise (p : String) (pages : List String) (i0 : Nat) :
    (extractFrom p i0 pages).Pairwise (fun d1 d2 => d1.page.getD 0 < d2.page.getD 0) := by
  induction pages generalizing i0 with
  | nil => simp [extractFrom]
  | cons t rest ih =>
    by_cases ht : pyStrip t = ""
    · rw [show extractFrom p i0 (t :: rest) = extractFrom p (i0 + 1) rest by
        simp [extractFrom, ht]]
      exact ih (i0 + 1)
    · rw [show extractFrom p i0 (t :: rest) =
          ({ page_content := pyStrip t, page := some (i0 + 1), source := p } : Doc) ::
            extractFrom p (i0 + 1) rest by simp [extractFrom, ht]]
      refine List.Pairwise.cons ?_ (ih (i0 + 1))
      intro d hd
      have h := extractFrom_page_gt p rest (i0 + 1) d hd
      simpa using h

/-- C6: for every PDF, `_extract_selectable_text_documents` returns, in page
order, exactly one Document per page whose stripped text is non-empty, each
with 1-based `page` metadata and that page's stripped text as content; it
returns the empty list (and, being a total function of the page texts, does
not raise) when no page has selectable text. -/
theorem extract_selectable_text_documents_spec (pdf_path : String) (pages : List String) :
    ((_extract_selectable_text_documents pdf_path pages).length =
        (pages.filter (fun t => ¬ pyStrip t = "")).length) ∧
    ((_extract_selectable_text_documents pdf_path pages).Pairwise
        (fun d1 d2 => d1.page.getD 0 < d2.page.getD 0)) ∧
    (∀ d ∈ _extract_selectable_text_documents pdf_path pages,
        ∃ j, j < pages.length ∧ d.page = some (j + 1) ∧
          d.page_content = pyStrip (pages.getD j "") ∧ ¬ d.page_content = "" ∧
          d.source = pdf_path) ∧
    (∀ j, j < pages.length → ¬ pyStrip (pages.getD j "") = "" →
        ∃ d ∈ _extract_selectable_text_documents pdf_path pages,
          d.page = some (j + 1) ∧ d.page_content = pyStrip (pages.getD j "")) ∧
    ((∀ t ∈ pages, pyStrip t = "") → _extract_selectable_text_documents pdf_path pages = []) := by
  refine ⟨extractFrom_length pdf_path pages 0, extractFrom_pairwise pdf_path pages 0, ?_, ?_, ?_⟩
  · intro d hd
    rw [_extract_selectable_text_documents, extractFrom_mem] at hd
    obtain ⟨j, hj, hne, rfl⟩ := hd
    exact ⟨j, hj, by simp, by simp, by simpa using hne, by simp⟩
  · intro j hj hne
    refine ⟨{ page_content := pyStrip (pages.getD j ""), page := some (0 + j + 1),
              source := pdf_path }, ?_, by simp [Nat.add_comm], by simp⟩
    rw [_extract_selectable_text_documents, extractFrom_mem]
    exact ⟨j, hj, hne, rfl⟩
  · intro hall
    rcases h : _extract_selectable_text_documents pdf_path pages with _ | ⟨d, ds⟩
    · rfl
    · exfalso
      have hd : d ∈ _extract_selectable_text_documents pdf_path pages := by
        rw [h]; exact List.mem_cons_self d ds
      rw [_extract_selectable_text_documents, extractFrom_mem] at hd
      obtain ⟨j, hj, hne, _⟩ := hd
      refine hne (hall _ ?_)
      rw [List.getD_eq_getElem _ _ hj]
      exact List.getElem_mem hj

/-- Witness for C6 at a concrete two-page PDF: the page with text " x "
yields the Document with page number 2 and content "x". -/
theorem extract_selectable_text_documents_spec_witness :
    ∃ d ∈ _extract_selectable_text_documents "a.pdf" ["", " x "],
      d.page = some 2 ∧ d.page_content = pyStrip (["", " x "].getD 1 "") := by
  exact (extract_selectable_text_documents_spec "a.pdf" ["", " x "]).2.2.2.1 1
    (by decide) (by decide)

/-- C7: every chunk that `process_document` passes to index construction
(the output of `processChunks`, worker.py lines 200-202) has non-empty
stripped content, and the chunk list is an order-preserving subsequence of
the splitter's output taken in source-document order, then split order
within each document. -/
theorem process_document_chunks_spec (splitOne : Doc → List Doc) (docs : List Doc) :
    (∀ c ∈ processChunks splitOne docs, ¬ pyStrip c.page_content = "") ∧
    (processChunks splitOne docs).Sublist (docs.flatMap splitOne) := by
  constructor
  · intro c hc
    have := List.of_mem_filter hc
    simpa using this
  · exact List.filter_sublist _

/-- Witness for C7: a concrete splitter output containing a whitespace-only
chunk, which is dropped while order is preserved. -/
theorem process_document_chunks_spec_witness :
    (∀ c ∈ processChunks
        (fun d => ([{ page_content := d.page_content }, { page_content := " " }] : List Doc))
        ([{ page_content := "a" }, { page_content := "b" }] : List Doc),
      ¬ pyStrip c.page_content = "") ∧
    (processChunks
        (fun d => ([{ page_content := d.page_content }, { page_content := " " }] : List Doc))
        ([{ page_content := "a" }, { page_content := "b" }] : List Doc)).Sublist
      (([{ page_content := "a" }, { page_content := "b" }] : List Doc).flatMap
        (fun d => ([{ page_content := d.page_content }, { page_content := " " }] : List Doc))) :=
  process_document_chunks_spec _ _

/-- C8: a chat message arriving while `conversation_retrieval_chain` is
`None` makes `process_prompt` return the fixed upload-first guidance string
without raising, and the `/chat` endpoint answer that message with HTTP 200
and that guidance string, never an error status. -/
theorem chat_no_pipeline_guidance (history : List (String × String))
    (invoke : RChain → String → Except PyError (Option String)) (msg : String)
    (hne : ¬ pyStrip msg = "") :
    process_prompt none history invoke msg =
      .ok ("Please upload a PDF first so I can answer based on it.", history) ∧
    chatEndpoint none history invoke (some msg) =
      (200, "Please upload a PDF first so I can answer based on it.") := by
  constructor
  · rfl
  · simp [chatEndpoint, hne, process_prompt]

/-- Witness for C8 at the concrete message "What is the total?". -/
theorem chat_no_pipeline_guidance_witness :
    process_prompt none [] (fun _ _ => .error .runtimeError) "What is the total?" =
      .ok ("Please upload a PDF first so I can answer based on it.", []) ∧
    chatEndpoint none [] (fun _ _ => .error .runtimeError) (some "What is the total?") =
      (200, "Please upload a PDF first so I can answer based on it.") :=
  chat_no_pipeline_guidance [] (fun _ _ => .error .runtimeError) "What is the total?"
    (by decide)

/-- C10: with a pipeline set and a non-empty prompt whose chain invocation
succeeds, `process_prompt` appends exactly one (stripped prompt, stripped
answer) pair to the history, and returns that stripped answer unless it is
empty, in which case it returns "No response." while the history records the
empty answer. -/
theorem process_prompt_history_append (ch : RChain) (history : List (String × String))
    (invoke : RChain → String → Except PyError (Option String)) (prompt : String)
    (res : Option String) (hne : ¬ pyStrip prompt = "")
    (hinv : invoke ch (pyStrip prompt) = .ok res) :
    ∃ r hist', process_prompt (some ch) history invoke prompt = .ok (r, hist') ∧
      hist' = history ++ [(pyStrip prompt, pyStrip (res.getD ""))] ∧
      (¬ pyStrip (res.getD "") = "" → r = pyStrip (res.getD "")) ∧
      (pyStrip (res.getD "") = "" → r = "No response.") := by
  refine ⟨(if pyStrip (res.getD "") = "" then "No response." else pyStrip (res.getD "")),
    history ++ [(pyStrip prompt, pyStrip (res.getD ""))], ?_, rfl, ?_, ?_⟩
  · simp [process_prompt, hne, hinv]
  · intro h; simp [h]
  · intro h; simp [h]

/-- Witness for C10: an invocation answering whitespace only — the history
logs the empty answer while the caller receives "No response.". -/
theorem process_prompt_history_append_witness :
    ∃ r hist',
      process_prompt (some (.fromCache "vector_db/x")) [("q0", "a0")]
        (fun _ _ => .ok (some "  ")) " what? " = .ok (r, hist') ∧
      hist' = [("q0", "a0")] ++ [(pyStrip " what? ", pyStrip ((some "  ").getD ""))] ∧
      (¬ pyStrip ((some "  ").getD "") = "" → r = pyStrip ((some "  ").getD "")) ∧
      (pyStrip ((some "  ").getD "") = "" → r = "No response.") :=
  process_prompt_history_append (.fromCache "vector_db/x") [("q0", "a0")]
    (fun _ _ => .ok (some "  ")) " what? " (some "  ") (by decide) rfl

/-- Counterexample to C5 as stated: a batch whose model response is empty
(`resp.content` whitespace-only, so `raw = ""` — not parseable as JSON, since
`json.loads("")` raises) yields NO Document at all: the `if raw:` guard at
worker.py line 142 skips the fallback append. -/
theorem vision_batch_empty_raw_counterexample :
    visionProcessBatch "scan.pdf" 0 3 "  " (Except.error ()) = [] := by rfl

/-- C5 amended: for a vision-fallback batch whose response fails JSON parsing
and whose stripped response text is non-empty, exactly one fallback Document
is appended — the stripped raw text tagged `ocr="vision_raw"` with the
batch's `page_range` tag — and the batch does not raise (the handler is a
total function). -/
theorem vision_batch_malformed_fallback (pdf_path : String) (batch_start batch_end : Nat)
    (respContent : String) (u : Unit) (hne : ¬ pyStrip respContent = "") :
    ∃ d, visionProcessBatch pdf_path batch_start batch_end respContent (Except.error u) = [d] ∧
      d.page_content = pyStrip respContent ∧ d.ocr = some "vision_raw" ∧
      d.page_range = some (toString (batch_start + 1) ++ "-" ++ toString batch_end) :=
  ⟨visionRawDoc pdf_path batch_start batch_end (pyStrip respContent),
    by simp [visionProcessBatch, hne], rfl, rfl, rfl⟩

/-- Witness for the amended C5: a batch answering plain prose instead of
JSON. -/
theorem vision_batch_malformed_fallback_witness :
    ∃ d, visionProcessBatch "scan.pdf" 3 6 "Sorry, here is the text." (Except.error ()) = [d] ∧
      d.page_content = pyStrip "Sorry, here is the text." ∧ d.ocr = some "vision_raw" ∧
      d.page_range = some (toString (3 + 1) ++ "-" ++ toString 6) :=
  vision_batch_malformed_fallback "scan.pdf" 3 6 "Sorry, here is the text." () (by decide)

/-! ### Lemmas about process_document -/

theorem visionCallBindingOk_false : visionCallBindingOk = false := by decide

theorem cacheHit_some_iff (dirEntries : FsState) (id : String) :
    cacheHit dirEntries (some id) = true ↔
      ∃ entries, dirEntries (persistDirOf id) = some entries ∧ entries ≠ [] := by
  cases h : dirEntries (persistDirOf id) with
  | none => simp [cacheHit, h]
  | some entries => simp [cacheHit, h, List.isEmpty_iff]

theorem process_document_cacheHit (dirEntries : FsState) (pages : List String)
    (responses : List (String × Except Unit PyVal)) (splitOne : Doc → List Doc)
    (st : SessionState) (document_path : String) (id : String)
    (hch : cacheHit dirEntries (some id) = true) :
    process_document dirEntries pages responses splitOne true st document_path (some id) =
      { result := .ok "cached",
        state := { conversation_retrieval_chain := some (.fromCache (persistDirOf id)),
                   chat_history := [] },
        fsAfter := dirEntries, trace := [.loadIndex] } := by
  simp [process_document, hch]

theorem process_document_cacheMiss (dirEntries : FsState) (pages : List String)
    (responses : List (String × Except Unit PyVal)) (splitOne : Doc → List Doc)
    (st : SessionState) (document_path : String) (doc_id : Option String)
    (hch : cacheHit dirEntries doc_id = false) :
    process_document dirEntries pages responses splitOne true st document_path doc_id =
      processDocumentMiss dirEntries pages responses splitOne
        st.conversation_retrieval_chain document_path (doc_id.map persistDirOf) := by
  simp [process_document, hch]

theorem processDocumentMiss_empty_extract (dirEntries : FsState) (pages : List String)
    (responses : List (String × Except Unit PyVal)) (splitOne : Doc → List Doc)
    (chain0 : Option RChain) (document_path : String) (persist_dir : Option String)
    (h : _extract_selectable_text_documents document_path pages = []) :
    processDocumentMiss dirEntries pages responses splitOne chain0 document_path persist_dir =
      { result := .error .typeError,
        state := { conversation_retrieval_chain := chain0, chat_history := [] },
        fsAfter := dirEntries, trace := [.extractText, .visionCall] } := by
  simp [processDocumentMiss, h, visionCallBindingOk_false]

theorem processDocumentMiss_nonempty_extract (dirEntries : FsState) (pages : List String)
    (responses : List (String × Except Unit PyVal)) (splitOne : Doc → List Doc)
    (chain0 : Option RChain) (document_path : String) (persist_dir : Option String)
    (h : ¬ _extract_selectable_text_documents document_path pages = []) :
    processDocumentMiss dirEntries pages responses splitOne chain0 document_path persist_dir =
      processDocumentAfterDocs dirEntries splitOne chain0 persist_dir
        (_extract_selectable_text_documents document_path pages) [.extractText] := by
  simp [processDocumentMiss, List.isEmpty_iff, h]

theorem processDocumentAfterDocs_some (dirEntries : FsState) (splitOne : Doc → List Doc)
    (chain0 : Option RChain) (pd : String) (docs : List Doc) (tr : List Event)
    (h : ¬ docs = []) :
    processDocumentAfterDocs dirEntries splitOne chain0 (some pd) docs tr =
      { result := .ok "indexed",
        state := { conversation_retrieval_chain :=
                     some (.fromDocs (processChunks splitOne docs) (some pd)),
                   chat_history := [] },
        fsAfter := fun d => if d = pd then some ["chroma.sqlite3"] else dirEntries d,
        trace := tr ++ [.splitChunks, .buildIndex] } := by
  simp [processDocumentAfterDocs, List.isEmpty_iff, h]

theorem processDocumentAfterDocs_none (dirEntries : FsState) (splitOne : Doc → List Doc)
    (chain0 : Option RChain) (docs : List Doc) (tr : List Event)
    (h : ¬ docs = []) :
    processDocumentAfterDocs dirEntries splitOne chain0 none docs tr =
      { result := .ok "indexed",
        state := { conversation_retrieval_chain :=
                     some (.fromDocs (processChunks splitOne docs) none),
                   chat_history := [] },
        fsAfter := dirEntries,
        trace := tr ++ [.splitChunks, .buildIndex] } := by
  simp [processDocumentAfterDocs, List.isEmpty_iff, h]

theorem processDocumentAfterDocs_result (dirEntries : FsState) (splitOne : Doc → List Doc)
    (chain0 : Option RChain) (persist_dir : Option String) (docs : List Doc)
    (tr : List Event) :
    (processDocumentAfterDocs dirEntries splitOne chain0 persist_dir docs tr).result =
        .error .valueError ∨
    (processDocumentAfterDocs dirEntries splitOne chain0 persist_dir docs tr).result =
        .ok "indexed" := by
  by_cases h : docs = []
  · subst h
    left
    cases persist_dir <;> rfl
  · right
    cases persist_dir with
    | none => rw [processDocumentAfterDocs_none _ _ _ _ _ h]
    | some pd => rw [processDocumentAfterDocs_some _ _ _ _ _ _ h]

theorem processDocumentMiss_error_state (dirEntries : FsState) (pages : List String)
    (responses : List (String × Except Unit PyVal)) (splitOne : Doc → List Doc)
    (chain0 : Option RChain) (document_path : String) (persist_dir : Option String)
    (e : PyError)
    (herr : (processDocumentMiss dirEntries pages responses splitOne chain0 document_path
        persist_dir).result = .error e) :
    (processDocumentMiss dirEntries pages responses splitOne chain0 document_path
        persist_dir).state =
      { conversation_retrieval_chain := chain0, chat_history := [] } := by
  by_cases hx : _extract_selectable_text_documents document_path pages = []
  · rw [processDocumentMiss_empty_extract _ _ _ _ _ _ _ hx]
  · rw [processDocumentMiss_nonempty_extract _ _ _ _ _ _ _ hx] at herr
    rcases processDocumentAfterDocs_result dirEntries splitOne chain0 persist_dir
        (_extract_selectable_text_documents document_path pages) [.extractText] with hr | hr
    · -- valueError cannot happen: docs are non-empty
      cases persist_dir with
      | none => rw [processDocumentAfterDocs_none _ _ _ _ _ hx] at hr; simp at hr
      | some pd => rw [processDocumentAfterDocs_some _ _ _ _ _ _ hx] at hr; simp at hr
    · rw [hr] at herr; simp at herr

theorem processDocumentMiss_not_cached (dirEntries : FsState) (pages : List String)
    (responses : List (String × Except Unit PyVal)) (splitOne : Doc → List Doc)
    (chain0 : Option RChain) (document_path : String) (persist_dir : Option String) :
    ¬ (processDocumentMiss dirEntries pages responses splitOne chain0 document_path
        persist_dir).result = .ok "cached" := by
  intro h
  by_cases hx : _extract_selectable_text_documents document_path pages = []
  · rw [processDocumentMiss_empty_extract _ _ _ _ _ _ _ hx] at h; simp at h
  · rw [processDocumentMiss_nonempty_extract _ _ _ _ _ _ _ hx] at h
    rcases processDocumentAfterDocs_result dirEntries splitOne chain0 persist_dir
        (_extract_selectable_text_documents document_path pages) [.extractText] with hr | hr <;>
      rw [hr] at h <;> simp at h

theorem process_document_cached_iff (dirEntries : FsState) (pages : List String)
    (responses : List (String × Except Unit PyVal)) (splitOne : Doc → List Doc)
    (st : SessionState) (document_path : String) (id : String) :
    ((process_document dirEntries pages responses splitOne true st document_path
        (some id)).result = .ok "cached") ↔ cacheHit dirEntries (some id) = true := by
  constructor
  · intro h
    by_contra hc
    have hc' : cacheHit dirEntries (some id) = false := by
      cases hcv : cacheHit dirEntries (some id) with
      | true => exact absurd hcv hc
      | false => rfl
    rw [process_document_cacheMiss _ _ _ _ _ _ _ hc'] at h
    exact processDocumentMiss_not_cached _ _ _ _ _ _ _ h
  · intro h
    rw [process_document_cacheHit _ _ _ _ _ _ _ h]

/-- C1 (code bug): on a cache miss, a document with selectable text never
reaches the vision call; but for a document with zero selectable-text pages,
the call `_vision_ocr_pdf(document_path, max_pages=12, zoom=1.4)` at
worker.py line 194 raises TypeError — `_vision_ocr_pdf` has no `zoom`
parameter — so the fallback's body never runs, contradicting the claim that
the call succeeds. -/
theorem process_document_vision_zoom_bug (dirEntries : FsState) (pages : List String)
    (responses : List (String × Except Unit PyVal)) (splitOne : Doc → List Doc)
    (st : SessionState) (document_path : String) (doc_id : Option String)
    (hmiss : cacheHit dirEntries doc_id = false) :
    (¬ _extract_selectable_text_documents document_path pages = [] →
      Event.visionCall ∉ (process_document dirEntries pages responses splitOne true st
          document_path doc_id).trace ∧
      Event.visionBody ∉ (process_document dirEntries pages responses splitOne true st
          document_path doc_id).trace) ∧
    (_extract_selectable_text_documents document_path pages = [] →
      (process_document dirEntries pages responses splitOne true st
          document_path doc_id).result = .error .typeError ∧
      Event.visionCall ∈ (process_document dirEntries pages responses splitOne true st
          document_path doc_id).trace ∧
      Event.visionBody ∉ (process_document dirEntries pages responses splitOne true st
          document_path doc_id).trace) := by
  rw [process_document_cacheMiss _ _ _ _ _ _ _ hmiss]
  constructor
  · intro hx
    rw [processDocumentMiss_nonempty_extract _ _ _ _ _ _ _ hx]
    cases doc_id.map persistDirOf with
    | none =>
      rw [processDocumentAfterDocs_none _ _ _ _ _ hx]
      exact ⟨by simp, by simp⟩
    | some pd =>
      rw [processDocumentAfterDocs_some _ _ _ _ _ _ hx]
      exact ⟨by simp, by simp⟩
  · intro hx
    rw [processDocumentMiss_empty_extract _ _ _ _ _ _ _ hx]
    exact ⟨rfl, by simp, by simp⟩

/-- Witness for C1 at a concrete one-page PDF whose single page has no
selectable text: the call raises TypeError and the vision body never runs. -/
theorem process_document_vision_zoom_bug_witness :
    (¬ _extract_selectable_text_documents "scan.pdf" ["  "] = [] →
      Event.visionCall ∉ (process_document (fun _ => none) ["  "] [] (fun d => [d]) true
          ⟨none, []⟩ "scan.pdf" none).trace ∧
      Event.visionBody ∉ (process_document (fun _ => none) ["  "] [] (fun d => [d]) true
          ⟨none, []⟩ "scan.pdf" none).trace) ∧
    (_extract_selectable_text_documents "scan.pdf" ["  "] = [] →
      (process_document (fun _ => none) ["  "] [] (fun d => [d]) true
          ⟨none, []⟩ "scan.pdf" none).result = .error .typeError ∧
      Event.visionCall ∈ (process_document (fun _ => none) ["  "] [] (fun d => [d]) true
          ⟨none, []⟩ "scan.pdf" none).trace ∧
      Event.visionBody ∉ (process_document (fun _ => none) ["  "] [] (fun d => [d]) true
          ⟨none, []⟩ "scan.pdf" none).trace) :=
  process_document_vision_zoom_bug (fun _ => none) ["  "] [] (fun d => [d]) ⟨none, []⟩
    "scan.pdf" none rfl

/-- C2: with `doc_id` set and a present, non-empty persist directory,
`process_document` returns "cached" and invokes neither extraction, nor the
vision fallback, nor chunk splitting, nor index building — the trace is the
cache load alone. -/
theorem process_document_cached_skips_pipeline (dirEntries : FsState) (pages : List String)
    (responses : List (String × Except Unit PyVal)) (splitOne : Doc → List Doc)
    (st : SessionState) (document_path : String) (id : String) (entries : List String)
    (hdir : dirEntries (persistDirOf id) = some entries) (hne : entries ≠ []) :
    (process_document dirEntries pages responses splitOne true st document_path
        (some id)).result = .ok "cached" ∧
    (process_document dirEntries pages responses splitOne true st document_path
        (some id)).trace = [Event.loadIndex] ∧
    Event.extractText ∉ (process_document dirEntries pages responses splitOne true st
        document_path (some id)).trace ∧
    Event.visionCall ∉ (process_document dirEntries pages responses splitOne true st
        document_path (some id)).trace ∧
    Event.splitChunks ∉ (process_document dirEntries pages responses splitOne true st
        document_path (some id)).trace ∧
    Event.buildIndex ∉ (process_document dirEntries pages responses splitOne true st
        document_path (some id)).trace := by
  have hch : cacheHit dirEntries (some id) = true :=
    (cacheHit_some_iff dirEntries id).mpr ⟨entries, hdir, hne⟩
  rw [process_document_cacheHit _ _ _ _ _ _ _ hch]
  exact ⟨rfl, rfl, by simp, by simp, by simp, by simp⟩

/-- Witness for C2 at a concrete non-empty persist directory. -/
theorem process_document_cached_skips_pipeline_witness :
    (process_document (fun d => if d = persistDirOf "abc123" then some ["chroma.sqlite3"]
        else none) ["page one"] [] (fun d => [d]) true ⟨none, []⟩ "doc.pdf"
        (some "abc123")).result = .ok "cached" ∧
    (process_document (fun d => if d = persistDirOf "abc123" then some ["chroma.sqlite3"]
        else none) ["page one"] [] (fun d => [d]) true ⟨none, []⟩ "doc.pdf"
        (some "abc123")).trace = [Event.loadIndex] := by
  have h := process_document_cached_skips_pipeline
    (fun d => if d = persistDirOf "abc123" then some ["chroma.sqlite3"] else none)
    ["page one"] [] (fun d => [d]) ⟨none, []⟩ "doc.pdf" "abc123" ["chroma.sqlite3"]
    (by simp) (by simp)
  exact ⟨h.1, h.2.1⟩

/-- C3: if a first `process_document` call with `doc_id` returns "indexed"
(persisting a non-empty index directory for that identifier), any later call
with the same `doc_id` against the resulting disk state returns "cached",
whatever its path, pages, responses or splitter. -/
theorem process_document_indexed_then_cached (dirEntries : FsState)
    (pages pages' : List String)
    (responses responses' : List (String × Except Unit PyVal))
    (splitOne splitOne' : Doc → List Doc) (st st' : SessionState)
    (document_path document_path' : String) (id : String)
    (h : (process_document dirEntries pages responses splitOne true st document_path
        (some id)).result = .ok "indexed") :
    (process_document
        (process_document dirEntries pages responses splitOne true st document_path
          (some id)).fsAfter
        pages' responses' splitOne' true st' document_path' (some id)).result =
      .ok "cached" := by
  have hch : cacheHit dirEntries (some id) = false := by
    cases hcv : cacheHit dirEntries (some id) with
    | false => rfl
    | true =>
      rw [process_document_cacheHit _ _ _ _ _ _ _ hcv] at h
      simp at h
  rw [process_document_cacheMiss _ _ _ _ _ _ _ hch] at h ⊢
  by_cases hx : _extract_selectable_text_documents document_path pages = []
  · rw [processDocumentMiss_empty_extract _ _ _ _ _ _ _ hx] at h
    simp at h
  · rw [processDocumentMiss_nonempty_extract _ _ _ _ _ _ _ hx] at h ⊢
    rw [show (some id).map persistDirOf = some (persistDirOf id) from rfl] at h ⊢
    rw [processDocumentAfterDocs_some _ _ _ _ _ _ hx]
    have hch2 : cacheHit
        (fun d => if d = persistDirOf id then some ["chroma.sqlite3"] else dirEntries d)
        (some id) = true := by
      rw [cacheHit_some_iff]
      exact ⟨["chroma.sqlite3"], by simp, by simp⟩
    rw [process_document_cacheHit _ _ _ _ _ _ _ hch2]

/-- Witness for C3: a fresh one-page document is indexed, and the repeat call
on the updated disk state is served from cache. -/
theorem process_document_indexed_then_cached_witness :
    (process_document (fun _ => none) ["hello world"] [] (fun d => [d]) true ⟨none, []⟩
        "invoice.pdf" (some "deadbeef")).result = .ok "indexed" ∧
    (process_document
        (process_document (fun _ => none) ["hello world"] [] (fun d => [d]) true ⟨none, []⟩
          "invoice.pdf" (some "deadbeef")).fsAfter
        ["hello world"] [] (fun d => [d]) true ⟨none, []⟩ "invoice_copy.pdf"
        (some "deadbeef")).result = .ok "cached" := by
  constructor
  · rfl
  · exact process_document_indexed_then_cached (fun _ => none) ["hello world"]
      ["hello world"] [] [] (fun d => [d]) (fun d => [d]) ⟨none, []⟩ ⟨none, []⟩
      "invoice.pdf" "invoice_copy.pdf" "deadbeef" rfl

/-- C9: `process_document` clears `chat_history` before attempting
extraction, so every initialized call that raises (necessarily after the
cache check) leaves the conversation log empty while
`conversation_retrieval_chain` still holds the previous document's
pipeline. -/
theorem process_document_error_clears_history (dirEntries : FsState) (pages : List String)
    (responses : List (String × Except Unit PyVal)) (splitOne : Doc → List Doc)
    (st : SessionState) (document_path : String) (doc_id : Option String) (e : PyError)
    (herr : (process_document dirEntries pages responses splitOne true st document_path
        doc_id).result = .error e) :
    (process_document dirEntries pages responses splitOne true st document_path
        doc_id).state.chat_history = [] ∧
    (process_document dirEntries pages responses splitOne true st document_path
        doc_id).state.conversation_retrieval_chain = st.conversation_retrieval_chain := by
  cases hcv : cacheHit dirEntries doc_id with
  | true =>
    cases doc_id with
    | none => simp [cacheHit] at hcv
    | some id =>
      rw [process_document_cacheHit _ _ _ _ _ _ _ hcv] at herr
      simp at herr
  | false =>
    rw [process_document_cacheMiss _ _ _ _ _ _ _ hcv] at herr ⊢
    rw [processDocumentMiss_error_state _ _ _ _ _ _ _ _ herr]
    exact ⟨rfl, rfl⟩

/-- Witness for C9: a state holding a previous pipeline and a non-empty log;
processing a no-text document raises while the log is wiped and the old
pipeline survives. -/
theorem process_document_error_clears_history_witness :
    (process_document (fun _ => none) [""] [] (fun d => [d]) true
        ⟨some (.fromCache "vector_db/old"), [("q", "a")]⟩ "blank.pdf" none).result =
      .error .typeError ∧
    (process_document (fun _ => none) [""] [] (fun d => [d]) true
        ⟨some (.fromCache "vector_db/old"), [("q", "a")]⟩ "blank.pdf"
        none).state.chat_history = [] ∧
    (process_document (fun _ => none) [""] [] (fun d => [d]) true
        ⟨some (.fromCache "vector_db/old"), [("q", "a")]⟩ "blank.pdf"
        none).state.conversation_retrieval_chain = some (.fromCache "vector_db/old") := by
  refine ⟨rfl, ?_⟩
  exact process_document_error_clears_history (fun _ => none) [""] [] (fun d => [d])
    ⟨some (.fromCache "vector_db/old"), [("q", "a")]⟩ "blank.pdf" none .typeError rfl

/-! ### Lemmas about sha256_file -/

theorem chunksOfBytes_flatten (n : Nat) (hn : 0 < n) (bs : List Nat) :
    (chunksOfBytes n bs).flatten = bs := by
  have H : ∀ m (bs : List Nat), bs.length ≤ m → (chunksOfBytes n bs).flatten = bs := by
    intro m
    induction m with
    | zero =>
      intro bs hb
      have hbs : bs = [] := List.length_eq_zero.mp (Nat.le_zero.mp hb)
      subst hbs
      rw [chunksOfBytes]
      simp
    | succ m ih =>
      intro bs hb
      rw [chunksOfBytes]
      by_cases hbs : bs = []
      · subst hbs; simp
      · have hcond : ¬ (bs.isEmpty = true ∨ n = 0) := by
          simp [List.isEmpty_iff, hbs]
          omega
        rw [if_neg hcond]
        have hlen : (bs.drop n).length ≤ m := by
          have h1 : 0 < bs.length := List.length_pos.mpr hbs
          simp only [List.length_drop]
          omega
        simp only [List.flatten_cons]
        rw [ih (bs.drop n) hlen]
        exact List.take_append_drop n bs
  exact H bs.length bs le_rfl

theorem roundStep_length (st : List Nat) (kw : Nat × Nat) :
    (roundStep st kw).length = st.length := by
  unfold roundStep
  split <;> simp

theorem foldl_roundStep_length (kws : List (Nat × Nat)) (st : List Nat) :
    (kws.foldl roundStep st).length = st.length := by
  induction kws generalizing st with
  | nil => rfl
  | cons kw rest ih => rw [List.foldl_cons, ih, roundStep_length]

theorem compressBlock_length (h0 block : List Nat) (h : h0.length = 8) :
    (compressBlock h0 block).length = 8 := by
  unfold compressBlock
  rw [List.length_zipWith, foldl_roundStep_length, h]
  simp

theorem foldl_compressBlock_length (blocks : List (List Nat)) (h0 : List Nat)
    (h : h0.length = 8) :
    (blocks.foldl compressBlock h0).length = 8 := by
  induction blocks generalizing h0 with
  | nil => simpa using h
  | cons b rest ih => rw [List.foldl_cons]; exact ih _ (compressBlock_length _ _ h)

theorem sha256Words_length (msg : List Nat) : (sha256Words msg).length = 8 :=
  foldl_compressBlock_length _ _ rfl

theorem flatMap_hexCharsOfWord_length (ws : List Nat) :
    (ws.flatMap hexCharsOfWord).length = 8 * ws.length := by
  induction ws with
  | nil => rfl
  | cons w rest ih =>
    simp only [List.flatMap_cons, List.length_append, ih, List.length_cons]
    have : (hexCharsOfWord w).length = 8 := rfl
    omega

theorem sha256Hex_length (msg : List Nat) : (sha256Hex msg).length = 64 := by
  show ((sha256Words msg).flatMap hexCharsOfWord).length = 64
  rw [flatMap_hexCharsOfWord_length, sha256Words_length]

theorem nibbleChar_mem_hex (n : Nat) : nibbleChar n ∈ hexDigitChars := by
  unfold nibbleChar
  rcases Nat.lt_or_ge n hexDigitChars.length with h | h
  · rw [List.getD_eq_getElem _ _ h]
    exact List.getElem_mem h
  · rw [List.getD_eq_default _ _ h]
    decide

theorem sha256Hex_chars (msg : List Nat) (c : Char) (hc : c ∈ (sha256Hex msg).data) :
    c ∈ hexDigitChars := by
  have hm : c ∈ (sha256Words msg).flatMap hexCharsOfWord := hc
  rw [List.mem_flatMap] at hm
  obtain ⟨w, _, hw⟩ := hm
  unfold hexCharsOfWord at hw
  simp only [List.mem_cons, List.not_mem_nil, or_false] at hw
  rcases hw with h | h | h | h | h | h | h | h <;> (subst h; exact nibbleChar_mem_hex _)

/-- C4: `sha256_file` depends only on the file's byte content — two paths
with identical bytes give the same identifier — and the identifier is a
64-character lowercase-hex string; and the identifier is the sole cache key:
whether `process_document` answers "cached" for a given identifier is
independent of the document's path, pages, responses, splitter and session
state. -/
theorem sha256_file_spec (fileBytes : String → List Nat) (p1 p2 : String)
    (hsame : fileBytes p1 = fileBytes p2) :
    sha256_file fileBytes p1 = sha256_file fileBytes p2 ∧
    (sha256_file fileBytes p1).length = 64 ∧
    (∀ c ∈ (sha256_file fileBytes p1).data, c ∈ hexDigitChars) ∧
    (∀ (dirEntries : FsState) (pages pages' : List String)
        (responses responses' : List (String × Except Unit PyVal))
        (splitOne splitOne' : Doc → List Doc) (st st' : SessionState)
        (path path' : String) (id : String),
      ((process_document dirEntries pages responses splitOne true st path
          (some id)).result = .ok "cached" ↔
       (process_document dirEntries pages' responses' splitOne' true st' path'
          (some id)).result = .ok "cached")) := by
  have key : ∀ p, sha256_file fileBytes p = sha256Hex (fileBytes p) := by
    intro p
    unfold sha256_file
    rw [chunksOfBytes_flatten 1048576 (by norm_num)]
  refine ⟨?_, ?_, ?_, ?_⟩
  · rw [key, key, hsame]
  · rw [key]
    exact sha256Hex_length _
  · rw [key]
    intro c hc
    exact sha256Hex_chars _ c hc
  · intro dirEntries pages pages' responses responses' splitOne splitOne' st st' path path' id
    rw [process_document_cached_iff, process_document_cached_iff]

/-- Witness for C4: the same four PDF-header bytes under two different
upload paths. -/
theorem sha256_file_spec_witness :
    sha256_file (fun _ => [37, 80, 68, 70]) "uploads/one.pdf" =
      sha256_file (fun _ => [37, 80, 68, 70]) "uploads/two.pdf" ∧
    (sha256_file (fun _ => [37, 80, 68, 70]) "uploads/one.pdf").length = 64 := by
  have h := sha256_file_spec (fun _ => [37, 80, 68, 70]) "uploads/one.pdf"
    "uploads/two.pdf" rfl
  exact ⟨h.1, h.2.1⟩
